import Mathlib

/-!
Verification development for the invoice issuance and archival pipeline of
the Rechnungen-GoBD-DE repository (FastAPI backend under `backend/app`).

The Python source is shallowly embedded: every definition below is a direct
translation of a function or code block of the repository (file and line
references are given on each definition).  Python `float` values are
modelled as exact dyadic rationals: an IEEE binary64 number is a rational
whose mantissa fits in 53 bits, and every arithmetic operation rounds its
exact rational result to the nearest such number (ties to even), which is
IEEE-754 round-to-nearest-even in the normal range.  Overflow and
subnormals are irrelevant for the monetary magnitudes handled by the code
and are not modelled.
-/

namespace PyFloat

/-- Round the nonnegative fraction `n / d` (with `d ≠ 0`) to the nearest
natural number, ties going to the even candidate.  This is the rounding
used both by IEEE-754 binary64 arithmetic and by CPython's
correctly-rounded `round(x, n)` and `format(x, '.2f')`. -/
def rhePos (n d : ℕ) : ℕ :=
  let q := n / d
  let r := n % d
  if 2 * r < d then q
  else if d < 2 * r then q + 1
  else if q % 2 = 0 then q else q + 1

/-- Round a rational to the nearest integer, ties to even. -/
def rhe (x : ℚ) : ℤ :=
  if x.num < 0 then -(rhePos x.num.natAbs x.den : ℤ)
  else (rhePos x.num.natAbs x.den : ℤ)

/-- Exact product of two rationals, written on the raw numerators and
denominators (the library's `Rat.mul` is `@[irreducible]`, which blocks
kernel evaluation; this definition computes the same value). -/
def qmul (a b : ℚ) : ℚ := Rat.divInt (a.num * b.num) (a.den * b.den)

/-- Exact sum of two rationals on the raw representation. -/
def qadd (a b : ℚ) : ℚ :=
  Rat.divInt (a.num * b.den + b.num * a.den) (a.den * b.den)

/-- Exact quotient of two rationals on the raw representation. -/
def qdiv (a b : ℚ) : ℚ := Rat.divInt (a.num * b.den) (a.den * b.num)

/-- Exact product of a rational with an integer. -/
def qscale (a : ℚ) (k : ℤ) : ℚ := Rat.divInt (a.num * k) a.den

/-- Double `u` (counting the doublings) until it reaches `v`.
Fuel-bounded so that the kernel can evaluate it. -/
def scaleN : ℕ → ℕ → ℕ → ℕ × ℕ
  | 0, u, _ => (u, 0)
  | f + 1, u, v =>
    if v ≤ u then (u, 0)
    else
      let p := scaleN f (2 * u) v
      (p.1, p.2 + 1)

/-- Double `d` (counting the doublings) until `n < 2^53 * d`. -/
def scaleD : ℕ → ℕ → ℕ → ℕ × ℕ
  | 0, d, _ => (d, 0)
  | f + 1, d, n =>
    if n < 2 ^ 53 * d then (d, 0)
    else
      let p := scaleD f (2 * d) n
      (p.1, p.2 + 1)

/-- The IEEE binary64 value nearest to the rational `x` (ties to even),
returned as an exact rational.  `toDouble` is the rounding that every
Python float operation applies to its exact result. -/
def toDouble (x : ℚ) : ℚ :=
  if x.num = 0 then 0
  else
    let n := x.num.natAbs
    let d := x.den
    let s : ℤ := if x.num < 0 then -1 else 1
    if 2 ^ 52 * d ≤ n then
      -- magnitude ≥ 2^52: scale the denominator
      let p := scaleD 1200 d n
      Rat.divInt (s * (rhePos n p.1 : ℤ) * 2 ^ p.2) 1
    else
      -- magnitude < 2^52: scale the numerator
      let p := scaleN 1200 n (2 ^ 52 * d)
      Rat.divInt (s * (rhePos p.1 d : ℤ)) (2 ^ p.2)

/-- A Python float literal (the double nearest to its decimal value). -/
def lit (x : ℚ) : ℚ := toDouble x

/-- Python float multiplication. -/
def fmul (a b : ℚ) : ℚ := toDouble (qmul a b)

/-- Python float addition. -/
def fadd (a b : ℚ) : ℚ := toDouble (qadd a b)

/-- Python float division. -/
def fdiv (a b : ℚ) : ℚ := toDouble (qdiv a b)

/-- CPython `round(x, 2)` on a float `x`: the exact value of `x` is rounded
to two decimal digits with ties to even, and the resulting decimal is
converted back to the nearest double. -/
def pyRound2 (x : ℚ) : ℚ := toDouble (Rat.divInt (rhe (qscale x 100)) 100)

/-- Decimal digits of `n` (most significant first), as characters. -/
def natDigits : ℕ → ℕ → List Char
  | 0, _ => []
  | _ + 1, 0 => []
  | f + 1, n => natDigits f (n / 10) ++ [Char.ofNat (48 + n % 10)]

/-- CPython `str`/`repr` of a natural number. -/
def natStr (n : ℕ) : String :=
  if n = 0 then "0" else String.mk (natDigits (n + 1) n)

/-- CPython `format(x, '.2f')` on a nonnegative float `x`: correctly
rounded (ties to even) to two fractional digits. -/
def fmt2 (x : ℚ) : String :=
  let c : ℤ := rhe (qscale x 100)
  let n : ℕ := c.natAbs
  (if c < 0 then "-" else "") ++ natStr (n / 100) ++ "." ++
    (if n % 100 < 10 then "0" else "") ++ natStr (n % 100)

/-- CPython `format(x, '.pf')` for nonnegative-or-negative `x`: correctly
rounded (ties to even) to `p` fractional digits. -/
def fmtP (p : ℕ) (x : ℚ) : String :=
  let c : ℤ := rhe (qscale x (10 ^ p))
  let n : ℕ := c.natAbs
  (if c < 0 then "-" else "") ++ natStr (n / 10 ^ p) ++
    (if p = 0 then "" else "." ++ String.mk (List.replicate (p - (natStr (n % 10 ^ p)).length) '0') ++ natStr (n % 10 ^ p))

/-- Search for the fewest fractional digits whose decimal rendering parses
back to the same double. -/
def reprDigits : ℕ → ℕ → ℚ → ℕ
  | 0, p, _ => p
  | f + 1, p, x =>
    if toDouble (Rat.divInt (rhe (qscale x (10 ^ p))) (10 ^ p)) = x then p
    else reprDigits f (p + 1) x

/-- CPython `str(x)`/`repr(x)` of a float in the non-exponent range: the
shortest fixed-point decimal (at least one fractional digit) that parses
back to the same double. -/
def reprFloat (x : ℚ) : String := fmtP (reprDigits 17 1 x) x

end PyFloat

/-- Decimal round-half-up to two fractional digits on the exact value, as
the specification describes the rounding ("half-up decimal rounding to 2
fractional digits").  This definition follows the specification's words,
not the source, and exists only to be compared against the source's
rounding. -/
def specHalfUp2 (x : ℚ) : ℚ :=
  Rat.divInt (Int.fdiv (200 * x.num + x.den) (2 * x.den)) 100

namespace Config

/-! Constants from `backend/app/core/config.py` (class `Settings`). -/

/-- `Settings.INVOICE_NUMBER_PREFIX` (config.py line 48). -/
def invoiceNumberPfx : String := "RE"

/-- `Settings.INVOICE_NUMBER_START` (config.py line 49). -/
def invoiceNumberStart : ℕ := 10000

/-- `Settings.TSA_URL` (config.py line 23). -/
def tsaUrl : String := "http://timestamp.digicert.com"

/-- `Settings.TSA_HASH_ALGORITHM` (config.py line 26). -/
def tsaHashAlgorithm : String := "SHA256"

end Config

namespace SHA256

/-! A byte-level SHA-256 implementation (FIPS 180-4), modelling Python's
`hashlib.sha256(...).hexdigest()`.  Bytes are naturals below 256 and all
words are naturals reduced modulo `2^32`. -/

/-- 32-bit right rotation. -/
def rotr (n x : ℕ) : ℕ := (x / 2 ^ n + x % 2 ^ n * 2 ^ (32 - n)) % 2 ^ 32

/-- 32-bit right shift. -/
def shr (n x : ℕ) : ℕ := x / 2 ^ n

/-- The first sixty-four primes. -/
def primes64 : List ℕ :=
  [2, 3, 5, 7, 11, 13, 17, 19, 23, 29, 31, 37, 41, 43, 47, 53,
   59, 61, 67, 71, 73, 79, 83, 89, 97, 101, 103, 107, 109, 113, 127, 131,
   137, 139, 149, 151, 157, 163, 167, 173, 179, 181, 191, 193, 197, 199,
   211, 223, 227, 229, 233, 239, 241, 251, 257, 263, 269, 271, 277, 281,
   283, 293, 307, 311]

/-- Integer cube root by bisection (largest `x` with `x^3 ≤ t`),
fuel-bounded. -/
def cbrtAux : ℕ → ℕ → ℕ → ℕ → ℕ
  | 0, lo, _, _ => lo
  | f + 1, lo, hi, t =>
    if hi ≤ lo + 1 then lo
    else
      let m := (lo + hi) / 2
      if m ^ 3 ≤ t then cbrtAux f m hi t else cbrtAux f lo m t

/-- Integer cube root. -/
def cbrt (t : ℕ) : ℕ := cbrtAux 200 0 (t + 1) t

/-- Integer square root by bisection, fuel-bounded. -/
def sqrtAux : ℕ → ℕ → ℕ → ℕ → ℕ
  | 0, lo, _, _ => lo
  | f + 1, lo, hi, t =>
    if hi ≤ lo + 1 then lo
    else
      let m := (lo + hi) / 2
      if m ^ 2 ≤ t then sqrtAux f m hi t else sqrtAux f lo m t

/-- Integer square root. -/
def isqrt (t : ℕ) : ℕ := sqrtAux 200 0 (t + 1) t

/-- Round constants: the first 32 bits of the fractional parts of the cube
roots of the first sixty-four primes. -/
def K : List ℕ := primes64.map fun p => cbrt (p * 2 ^ 96) % 2 ^ 32

/-- Initial hash state: the first 32 bits of the fractional parts of the
square roots of the first eight primes. -/
def H0 : List ℕ := (primes64.take 8).map fun p => isqrt (p * 2 ^ 64) % 2 ^ 32

/-- Big-endian bytes of `n`, `k` bytes wide. -/
def beBytes : ℕ → ℕ → List ℕ
  | 0, _ => []
  | k + 1, n => beBytes k (n / 256) ++ [n % 256]

/-- Message padding: `0x80`, zeros to 56 mod 64, then the 64-bit bit length. -/
def pad (msg : List ℕ) : List ℕ :=
  let z := (119 - msg.length % 64) % 64
  msg ++ (128 :: List.replicate z 0) ++ beBytes 8 (8 * msg.length)

/-- Split a list into 64-byte chunks (fuel-bounded). -/
def chunks : ℕ → List ℕ → List (List ℕ)
  | 0, _ => []
  | _ + 1, [] => []
  | f + 1, l => l.take 64 :: chunks f (l.drop 64)

/-- Big-endian 32-bit words of a chunk (fuel-bounded). -/
def toWords : ℕ → List ℕ → List ℕ
  | 0, _ => []
  | _ + 1, [] => []
  | f + 1, l => (l.take 4).foldl (fun a b => a * 256 + b) 0 :: toWords f (l.drop 4)

/-- One step of the message-schedule extension. -/
def nextWord (ws : List ℕ) : ℕ :=
  let n := ws.length
  let w15 := ws.getD (n - 15) 0
  let w2 := ws.getD (n - 2) 0
  let s0 := rotr 7 w15 ^^^ rotr 18 w15 ^^^ shr 3 w15
  let s1 := rotr 17 w2 ^^^ rotr 19 w2 ^^^ shr 10 w2
  (ws.getD (n - 16) 0 + s0 + ws.getD (n - 7) 0 + s1) % 2 ^ 32

/-- Extend the 16 words of a chunk to 64. -/
def extendWords : ℕ → List ℕ → List ℕ
  | 0, ws => ws
  | k + 1, ws => extendWords k (ws ++ [nextWord ws])

/-- One compression round. -/
def round (st : List ℕ) (kw : ℕ × ℕ) : List ℕ :=
  match st with
  | [a, b, c, d, e, f, g, h] =>
    let s1 := rotr 6 e ^^^ rotr 11 e ^^^ rotr 25 e
    let ch := e &&& f ^^^ (2 ^ 32 - 1 - e) &&& g
    let t1 := (h + s1 + ch + kw.1 + kw.2) % 2 ^ 32
    let s0 := rotr 2 a ^^^ rotr 13 a ^^^ rotr 22 a
    let mj := a &&& b ^^^ a &&& c ^^^ b &&& c
    let t2 := (s0 + mj) % 2 ^ 32
    [(t1 + t2) % 2 ^ 32, a, b, c, (d + t1) % 2 ^ 32, e, f, g]
  | st => st

/-- Compress one chunk into the running hash state. -/
def compress (h : List ℕ) (chunk : List ℕ) : List ℕ :=
  let ws := extendWords 48 (toWords 17 chunk)
  let st := (K.zip ws).foldl (fun s kw => round s kw) h
  (h.zip st).map fun p => (p.1 + p.2) % 2 ^ 32

/-- The eight 32-bit words of the SHA-256 digest of a byte string. -/
def hashWords (msg : List ℕ) : List ℕ :=
  (chunks (msg.length + 73) (pad msg)).foldl compress H0

/-- Lower-case hexadecimal digits of `n`, `k` digits wide. -/
def hexDigits : ℕ → ℕ → List Char
  | 0, _ => []
  | k + 1, n =>
    hexDigits k (n / 16) ++
      [Char.ofNat (if n % 16 < 10 then 48 + n % 16 else 87 + n % 16)]

/-- Python `hashlib.sha256(b).hexdigest()`. -/
def hexdigest (msg : List ℕ) : String :=
  String.mk ((hashWords msg).flatMap fun w => hexDigits 8 w)

end SHA256

/-- Python `f"{n:06d}"`: decimal rendering left-padded with zeros to at
least six characters. -/
def zeroPad6 (n : ℕ) : String :=
  let s := PyFloat.natStr n
  String.mk (List.replicate (6 - s.length) '0') ++ s

/-- The invoice-number rendering `f"{prefix}{sequence.current_number:06d}"`
of `InvoiceService._generate_invoice_number`
(invoice_service.py line 235). -/
def formatInvoiceNumber (n : ℕ) : String := Config.invoiceNumberPfx ++ zeroPad6 n

/-- `InvoiceService._generate_invoice_number` (invoice_service.py lines
213-240) acting on the `invoice_number_sequence` row for the configured
prefix.  The row is held under `SELECT ... FOR UPDATE` (`with_for_update`),
so concurrent calls serialize through this critical section; the function
is therefore modelled as an atomic transition on the row state.  `none`
means no row exists yet for the prefix; in that case the row is created
with `current_number = settings.INVOICE_NUMBER_START` inside the same
critical section.  Returns the rendered invoice number together with the
committed new `current_number`. -/
def generateInvoiceNumberRaw (seq : Option ℕ) : ℕ × ℕ :=
  match seq with
  | none => (Config.invoiceNumberStart, Config.invoiceNumberStart + 1)
  | some c => (c, c + 1)

/-- The rendered result of `_generate_invoice_number`. -/
def generateInvoiceNumber (seq : Option ℕ) : String × ℕ :=
  let p := generateInvoiceNumberRaw seq
  (formatInvoiceNumber p.1, p.2)

/-- The integers issued by `n` successive allocations starting from row
state `seq` (each call commits its increment before the next one runs, as
enforced by the row lock). -/
def allocRun : ℕ → Option ℕ → List ℕ
  | 0, _ => []
  | n + 1, seq =>
    let p := generateInvoiceNumberRaw seq
    p.1 :: allocRun n (some p.2)

/-- The base of a run: the `current_number` an existing row holds, or the
configured starting value if the first call has to create the row. -/
def allocBase (seq : Option ℕ) : ℕ :=
  match seq with
  | none => Config.invoiceNumberStart
  | some c => c

/-- A line item of the creation request (`LineItemCreate` in
schemas/schemas.py: `quantity: float (gt=0)`, `unit_price: float (ge=0)`,
`tax_rate: float (ge=0, le=100)`).  The numeric fields are Python floats,
i.e. dyadic rationals. -/
structure LineItemIn where
  description : String
  quantity : ℚ
  unit : String
  unit_price : ℚ
  tax_rate : ℚ
deriving Repr, DecidableEq

/-- A computed line item as assembled into `line_items_data`
(invoice_service.py lines 63-78). -/
structure LineItemComputed where
  position : ℕ
  description : String
  quantity : ℚ
  unit : String
  unit_price : ℚ
  line_net : ℚ
  tax_rate : ℚ
  tax_amount : ℚ
  line_gross : ℚ
deriving Repr, DecidableEq

/-- `line_net = round(item.quantity * item.unit_price, 2)`
(invoice_service.py line 64). -/
def lineNet (quantity unit_price : ℚ) : ℚ :=
  PyFloat.pyRound2 (PyFloat.fmul quantity unit_price)

/-- `tax_amount = round(line_net * item.tax_rate / 100, 2)`
(invoice_service.py line 65; Python groups as `(line_net * tax_rate) / 100`). -/
def lineTax (line_net tax_rate : ℚ) : ℚ :=
  PyFloat.pyRound2 (PyFloat.fdiv (PyFloat.fmul line_net tax_rate) (PyFloat.lit 100))

/-- `line_gross = round(line_net + tax_amount, 2)` (invoice_service.py line 66). -/
def lineGross (line_net tax_amount : ℚ) : ℚ :=
  PyFloat.pyRound2 (PyFloat.fadd line_net tax_amount)

/-- One iteration of the totals loop (invoice_service.py lines 63-78). -/
def computeLine (pos : ℕ) (item : LineItemIn) : LineItemComputed :=
  let n := lineNet item.quantity item.unit_price
  let t := lineTax n item.tax_rate
  { position := pos
    description := item.description
    quantity := item.quantity
    unit := item.unit
    unit_price := item.unit_price
    line_net := n
    tax_rate := item.tax_rate
    tax_amount := t
    line_gross := lineGross n t }

/-- `enumerate(invoice_data.line_items, start=1)` over the totals loop. -/
def computeLines (items : List LineItemIn) : List LineItemComputed :=
  (List.range items.length).zipWith (fun i it => computeLine (i + 1) it) items

/-- `net_total`: float accumulation `net_total += line_net` starting from
`0.0` (invoice_service.py lines 60, 80). -/
def netTotal (lines : List LineItemComputed) : ℚ :=
  lines.foldl (fun acc l => PyFloat.fadd acc l.line_net) (PyFloat.lit 0)

/-- `tax_total`: float accumulation `tax_total += tax_amount`
(invoice_service.py lines 61, 81). -/
def taxTotal (lines : List LineItemComputed) : ℚ :=
  lines.foldl (fun acc l => PyFloat.fadd acc l.tax_amount) (PyFloat.lit 0)

/-- `gross_total = round(net_total + tax_total, 2)`
(invoice_service.py line 83). -/
def grossTotal (lines : List LineItemComputed) : ℚ :=
  PyFloat.pyRound2 (PyFloat.fadd (netTotal lines) (taxTotal lines))

/-- A calendar date (the parts of `datetime` the pipeline renders). -/
structure Date where
  year : ℕ
  month : ℕ
  day : ℕ
deriving Repr, DecidableEq

/-- Zero-pad a natural to at least `k` decimal digits. -/
def zeroPad (k n : ℕ) : String :=
  let s := PyFloat.natStr n
  String.mk (List.replicate (k - s.length) '0') ++ s

/-- `issue_date.strftime('%Y%m%d')` (zugferd_generator.py line 69). -/
def fmtYmd (d : Date) : String := zeroPad 4 d.year ++ zeroPad 2 d.month ++ zeroPad 2 d.day

/-- `issue_date.strftime('%d.%m.%Y')` (pdf_generator.py line 113). -/
def fmtDmy (d : Date) : String :=
  zeroPad 2 d.day ++ "." ++ zeroPad 2 d.month ++ "." ++ zeroPad 4 d.year

/-- `Seller` schema (schemas/schemas.py): `tax_id` is mandatory. -/
structure Seller where
  name : String
  street : String
  zip : String
  city : String
  country : String
  tax_id : String
  email : Option String
  phone : Option String
deriving Repr, DecidableEq

/-- `Buyer` schema (schemas/schemas.py): `tax_id` is optional. -/
structure Buyer where
  name : String
  street : String
  zip : String
  city : String
  country : String
  tax_id : Option String
  email : Option String
  phone : Option String
deriving Repr, DecidableEq

/-- `InvoiceCreate` schema (schemas/schemas.py). -/
structure InvoiceCreate where
  issue_date : Date
  delivery_date_start : Option Date
  delivery_date_end : Option Date
  currency : String
  tax_exempt : Bool
  tax_exempt_reason : Option String
  notes : Option String
  payment_terms : Option String
  seller : Seller
  buyer : Buyer
  line_items : List LineItemIn
deriving Repr, DecidableEq

namespace Xml

/-- A qualified element name: namespace URI plus local name (lxml's clark
notation `\x7buri\x7dlocal` is modelled as this pair). -/
structure QN where
  ns : String
  nm : String
deriving Repr, DecidableEq

/-- An XML element: tag, attributes, text content, children.  Byte-level
serialization and re-parsing (`etree.tostring` / `etree.fromstring`) are
modelled as the identity on this tree; `Xml.encode` below provides the
byte image used where the code hashes or stores the serialized form. -/
inductive XElem where
  | node (tag : QN) (attrs : List (String × String)) (text : String)
      (children : List XElem)
deriving Repr

/-- The element's tag. -/
def XElem.tag : XElem → QN
  | .node t _ _ _ => t

/-- The element's children. -/
def XElem.children : XElem → List XElem
  | .node _ _ _ cs => cs

/-- Element with children only. -/
def E (t : QN) (cs : List XElem) : XElem := .node t [] "" cs

/-- Element with text only. -/
def T (t : QN) (s : String) : XElem := .node t [] s []

/-- Element with attributes and text. -/
def TA (t : QN) (attrs : List (String × String)) (s : String) : XElem :=
  .node t attrs s []

/-- `NAMESPACES['rsm']` (zugferd_generator.py line 21). -/
def rsmNS : String := "urn:un:unece:uncefact:data:standard:CrossIndustryInvoice:100"

/-- `NAMESPACES['ram']` (zugferd_generator.py line 22). -/
def ramNS : String :=
  "urn:un:unece:uncefact:data:standard:ReusableAggregateBusinessInformationEntity:100"

/-- `NAMESPACES['udt']` (zugferd_generator.py line 24). -/
def udtNS : String := "urn:un:unece:uncefact:data:standard:UnqualifiedDataType:100"

/-- `rsm`-qualified name. -/
def rsm (nm : String) : QN := ⟨rsmNS, nm⟩

/-- `ram`-qualified name. -/
def ram (nm : String) : QN := ⟨ramNS, nm⟩

/-- `udt`-qualified name. -/
def udt (nm : String) : QN := ⟨udtNS, nm⟩

/-- Descendant search: whether some element of the list or a descendant of
one carries tag `p`.  `root.find('.//x') is not None` of
`ZUGFeRDGenerator.validate` is `hasTagL p root.children`. -/
def hasTagL (p : QN) : List XElem → Bool
  | [] => false
  | .node t _ _ cs :: rest => (t = p) || hasTagL p cs || hasTagL p rest

/-- The text contents of all descendants with tag `p`, in document order
(the textual payload `root.find('.//x').text` inspects). -/
def textsOfTag (p : QN) : List XElem → List String
  | [] => []
  | .node t _ tx cs :: rest =>
    (if t = p then [tx] else []) ++ textsOfTag p cs ++ textsOfTag p rest

/-- A crude injective-enough byte image of an element tree, standing for
`etree.tostring` (the claims only need that it is a function of the tree). -/
def encode : XElem → List ℕ
  | .node t attrs text cs =>
    [60] ++ (t.ns ++ ":" ++ t.nm).data.map Char.toNat ++
      attrs.flatMap (fun a => [32] ++ (a.1 ++ "=" ++ a.2).data.map Char.toNat) ++
      [62] ++ text.data.map Char.toNat ++
      (cs.attach.flatMap fun c => encode c.1) ++ [60, 47, 62]
decreasing_by
  have h := List.sizeOf_lt_of_mem c.2
  simp only [Xml.XElem.node.sizeOf_spec]
  omega

end Xml

namespace ZUGFeRD

open Xml

/-- One `IncludedSupplyChainTradeLineItem` element
(zugferd_generator.py lines 79-117). -/
def lineItemElem (item : LineItemComputed) : XElem :=
  E (ram "IncludedSupplyChainTradeLineItem")
    [E (ram "AssociatedDocumentLineDocument")
        [T (ram "LineID") (PyFloat.natStr item.position)],
     E (ram "SpecifiedTradeProduct") [T (ram "Name") item.description],
     E (ram "SpecifiedLineTradeAgreement")
        [E (ram "NetPriceProductTradePrice")
            [T (ram "ChargeAmount") (PyFloat.fmt2 item.unit_price)]],
     E (ram "SpecifiedLineTradeDelivery")
        [TA (ram "BilledQuantity") [("unitCode", item.unit)]
            (PyFloat.reprFloat item.quantity)],
     E (ram "SpecifiedLineTradeSettlement")
        [E (ram "ApplicableTradeTax")
            [T (ram "TypeCode") "VAT",
             T (ram "CategoryCode") "S",
             T (ram "RateApplicablePercent") (PyFloat.fmt2 item.tax_rate)],
         E (ram "SpecifiedTradeSettlementLineMonetarySummation")
            [T (ram "LineTotalAmount") (PyFloat.fmt2 item.line_net)]]]

/-- `SellerTradeParty` (zugferd_generator.py lines 123-134). -/
def sellerParty (s : Seller) : XElem :=
  E (ram "SellerTradeParty")
    [T (ram "Name") s.name,
     E (ram "PostalTradeAddress")
        [T (ram "PostcodeCode") s.zip,
         T (ram "LineOne") s.street,
         T (ram "CityName") s.city,
         T (ram "CountryID") s.country],
     E (ram "SpecifiedTaxRegistration")
        [TA (ram "ID") [("schemeID", "VA")] s.tax_id]]

/-- `BuyerTradeParty` (zugferd_generator.py lines 137-149); the tax
registration is emitted only when `buyer.tax_id` is truthy (neither `None`
nor the empty string). -/
def buyerParty (b : Buyer) : XElem :=
  E (ram "BuyerTradeParty")
    ([T (ram "Name") b.name,
      E (ram "PostalTradeAddress")
        [T (ram "PostcodeCode") b.zip,
         T (ram "LineOne") b.street,
         T (ram "CityName") b.city,
         T (ram "CountryID") b.country]] ++
     (match b.tax_id with
      | none => []
      | some t =>
        if t = "" then []
        else [E (ram "SpecifiedTaxRegistration") [TA (ram "ID") [("schemeID", "VA")] t]]))

/-- `ZUGFeRDGenerator.generate` (zugferd_generator.py lines 27-212),
producing the element tree that `etree.tostring` serializes. -/
def generate (invoice_number : String) (issue_date : Date) (seller : Seller)
    (buyer : Buyer) (line_items : List LineItemComputed)
    (net_total tax_total gross_total : ℚ) (currency : String)
    (delivery_date_start delivery_date_end : Option Date)
    (payment_terms : Option String) : XElem :=
  let context :=
    E (rsm "ExchangedDocumentContext")
      [E (ram "GuidelineSpecifiedDocumentContextParameter")
          [T (ram "ID") "urn:cen.eu:en16931:2017#compliant#urn:factur-x.eu:1p0:basic"]]
  let header :=
    E (rsm "ExchangedDocument")
      [T (ram "ID") invoice_number,
       T (ram "TypeCode") "380",
       E (ram "IssueDateTime")
          [TA (udt "DateTimeString") [("format", "102")] (fmtYmd issue_date)]]
  let agreement :=
    E (ram "ApplicableHeaderTradeAgreement") [sellerParty seller, buyerParty buyer]
  let delivery :=
    E (ram "ApplicableHeaderTradeDelivery")
      (match delivery_date_end, delivery_date_start with
       | none, none => []
       | de, ds =>
         let d := (de.getD (ds.getD ⟨0, 0, 0⟩))
         [E (ram "ActualDeliverySupplyChainEvent")
             [E (ram "OccurrenceDateTime")
                 [TA (udt "DateTimeString") [("format", "102")] (fmtYmd d)]]])
  let taxBreakdown :=
    E (ram "ApplicableTradeTax")
      ([T (ram "CalculatedAmount") (PyFloat.fmt2 tax_total),
        T (ram "TypeCode") "VAT",
        T (ram "BasisAmount") (PyFloat.fmt2 net_total),
        T (ram "CategoryCode") "S"] ++
       (match line_items with
        | [] => []
        | it :: _ => [T (ram "RateApplicablePercent") (PyFloat.fmt2 it.tax_rate)]))
  let summation :=
    E (ram "SpecifiedTradeSettlementHeaderMonetarySummation")
      [T (ram "LineTotalAmount") (PyFloat.fmt2 net_total),
       T (ram "TaxBasisTotalAmount") (PyFloat.fmt2 net_total),
       TA (ram "TaxTotalAmount") [("currencyID", currency)] (PyFloat.fmt2 tax_total),
       T (ram "GrandTotalAmount") (PyFloat.fmt2 gross_total),
       T (ram "DuePayableAmount") (PyFloat.fmt2 gross_total)]
  let settlement :=
    E (ram "ApplicableHeaderTradeSettlement")
      ([T (ram "InvoiceCurrencyCode") currency, taxBreakdown] ++
       (match payment_terms with
        | none => []
        | some pt =>
          if pt = "" then []
          else [E (ram "SpecifiedTradePaymentTerms") [T (ram "Description") pt]]) ++
       [summation])
  let transaction :=
    E (rsm "SupplyChainTradeTransaction")
      (line_items.map lineItemElem ++ [agreement, delivery, settlement])
  E (rsm "CrossIndustryInvoice") [context, header, transaction]

/-- `ZUGFeRDGenerator.validate` (zugferd_generator.py lines 214-243):
parse the bytes, check the root tag, then check that each of the four
required descendants exists. -/
def validate (root : XElem) : Bool :=
  (root.tag = rsm "CrossIndustryInvoice") &&
    hasTagL (ram "ID") root.children &&
    hasTagL (ram "SellerTradeParty") root.children &&
    hasTagL (ram "BuyerTradeParty") root.children &&
    hasTagL (ram "GrandTotalAmount") root.children

end ZUGFeRD

namespace Pdf

/-- The visual content of the ReportLab story built by
`PDFGenerator.generate` (pdf_generator.py lines 50-225): rendering to the
page is modelled as this structured value; the binary PDF image is
`Pdf.encode` of it. -/
structure PdfDoc where
  title : String
  buyerBlock : String
  sellerBlock : String
  detailsRows : List (List String)
  lineItemRows : List (List String)
  totalsRows : List (List String)
  paymentTerms : Option String
  notes : Option String
deriving Repr, DecidableEq

/-- The attachment created by `PDFGenerator._embed_zugferd_xml`
(pdf_generator.py lines 236-287): embedded-file stream plus its file
specification with the PDF/A-3 `AFRelationship`. -/
structure EmbeddedXml where
  filename : String
  afRelationship : String
  content : List ℕ
  size : ℕ
deriving Repr, DecidableEq

/-- A composed PDF/A-3 document: visual story plus optional attachment. -/
structure Pdfa3 where
  doc : PdfDoc
  attachment : Option EmbeddedXml
deriving Repr, DecidableEq

/-- The buyer address paragraph (pdf_generator.py lines 90-94); the tax-id
line is appended only when `buyer.tax_id` is truthy. -/
def buyerBlockOf (b : Buyer) : String :=
  b.name ++ "<br/>" ++ b.street ++ "<br/>" ++ b.zip ++ " " ++ b.city ++ "<br/>" ++
    b.country ++
    (match b.tax_id with
     | none => ""
     | some t => if t = "" then "" else "<br/>USt-IdNr: " ++ t)

/-- The seller address paragraph (pdf_generator.py lines 95-98). -/
def sellerBlockOf (s : Seller) : String :=
  "<b>Rechnungssteller:</b><br/>" ++ s.name ++ "<br/>" ++ s.street ++ "<br/>" ++
    s.zip ++ " " ++ s.city ++ "<br/>" ++ s.country ++ "<br/>USt-IdNr: " ++ s.tax_id

/-- One row of the line-item table (pdf_generator.py lines 138-147). -/
def lineRow (currency : String) (item : LineItemComputed) : List String :=
  [PyFloat.natStr item.position,
   item.description,
   PyFloat.fmt2 item.quantity,
   item.unit,
   PyFloat.fmt2 item.unit_price ++ " " ++ currency,
   PyFloat.fmtP 0 item.tax_rate ++ "%",
   PyFloat.fmt2 item.line_gross ++ " " ++ currency]

/-- `PDFGenerator.generate` (pdf_generator.py lines 29-234). -/
def generate (invoice_number : String) (issue_date : Date) (seller : Seller)
    (buyer : Buyer) (line_items : List LineItemComputed)
    (net_total tax_total gross_total : ℚ) (currency : String)
    (notes payment_terms : Option String) (zugferd_xml : Option (List ℕ)) :
    Pdfa3 :=
  let doc : PdfDoc :=
    { title := "Rechnung " ++ invoice_number
      buyerBlock := buyerBlockOf buyer
      sellerBlock := sellerBlockOf seller
      detailsRows :=
        [["Rechnungsnummer", invoice_number],
         ["Rechnungsdatum", fmtDmy issue_date]]
      lineItemRows :=
        ["Pos.", "Beschreibung", "Menge", "Einheit", "Preis", "MwSt.", "Gesamt"] ::
          line_items.map (lineRow currency)
      totalsRows :=
        [["Nettobetrag:", PyFloat.fmt2 net_total ++ " " ++ currency],
         ["MwSt.:", PyFloat.fmt2 tax_total ++ " " ++ currency],
         ["", ""],
         ["Gesamtbetrag:", PyFloat.fmt2 gross_total ++ " " ++ currency]]
      paymentTerms := payment_terms
      notes := notes }
  let attachment :=
    match zugferd_xml with
    | none => none
    | some xs =>
      if xs = [] then none
      else some { filename := "zugferd-invoice.xml"
                  afRelationship := "Alternative"
                  content := xs
                  size := xs.length }
  { doc := doc, attachment := attachment }

/-- Byte image of a string. -/
def strBytes (s : String) : List ℕ := s.data.map Char.toNat

/-- Byte image of the composed document, standing for the binary PDF the
ReportLab/pikepdf toolchain emits (the claims need only that it is a
function of the composed content). -/
def encode (p : Pdfa3) : List ℕ :=
  strBytes p.doc.title ++ [0] ++ strBytes p.doc.buyerBlock ++ [0] ++
    strBytes p.doc.sellerBlock ++ [0] ++
    (p.doc.detailsRows ++ p.doc.lineItemRows ++ p.doc.totalsRows).flatMap
      (fun row => row.flatMap (fun c => strBytes c ++ [1]) ++ [2]) ++
    strBytes ((p.doc.paymentTerms.getD "") ++ "|" ++ (p.doc.notes.getD "")) ++
    (match p.attachment with
     | none => []
     | some a => [3] ++ strBytes a.filename ++ [0] ++ strBytes a.afRelationship ++
         [0] ++ a.content ++ [0] ++ [a.size % 256])

end Pdf

namespace Signature

/-- The `tsa_token_metadata` dictionary built by
`SignatureService._add_timestamp` (signature_service.py lines 97-103 on
success, 114-121 on fallback).  `warning` is present only in the fallback
token. -/
structure TsaToken where
  tsa_url : String
  timestamp : String
  hash_algorithm : String
  pdf_hash : String
  signed_pdf_hash : String
  warning : Option String
deriving Repr, DecidableEq

/-- `SignatureService._add_timestamp` (signature_service.py lines 49-121).
`tsaOutcome` is the result of the pyhanko/TSA interaction in the `try`
block: `some signed` when `signers.sign_pdf` produced the timestamped
bytes, `none` when anything in the block raised (network error, malformed
response, timeout).  The `except Exception` handler catches every failure,
so the function is total: the fallback returns the input bytes unchanged
together with a mock token. -/
def addTimestamp (now : String) (tsaOutcome : Option (List ℕ))
    (pdf_bytes : List ℕ) : List ℕ × TsaToken :=
  match tsaOutcome with
  | some signed_pdf_bytes =>
    (signed_pdf_bytes,
     { tsa_url := Config.tsaUrl
       timestamp := now
       hash_algorithm := Config.tsaHashAlgorithm
       pdf_hash := SHA256.hexdigest pdf_bytes
       signed_pdf_hash := SHA256.hexdigest signed_pdf_bytes
       warning := none })
  | none =>
    (pdf_bytes,
     { tsa_url := "mock_tsa"
       timestamp := now
       hash_algorithm := Config.tsaHashAlgorithm
       pdf_hash := SHA256.hexdigest pdf_bytes
       signed_pdf_hash := SHA256.hexdigest pdf_bytes
       warning := some "Mock timestamp - not for production use" })

/-- `SignatureService.sign_pdf` (signature_service.py lines 31-47):
delegates to `_add_timestamp`. -/
def signPdf (now : String) (tsaOutcome : Option (List ℕ))
    (pdf_bytes : List ℕ) : List ℕ × TsaToken :=
  addTimestamp now tsaOutcome pdf_bytes

end Signature

namespace Storage

/-- One entry of an S3 version stack: a stored body, or a delete marker
(`body = none`). -/
structure S3Version where
  body : Option (List ℕ)
  contentType : String
deriving Repr, DecidableEq

/-- State of the S3 backend: per key, the stack of versions, oldest first.
`_ensure_bucket_exists` (storage_service.py lines 64-87) enables bucket
versioning when it creates the bucket, so `put_object` appends a new
version and `delete_object` appends a delete marker. -/
def S3State : Type := String → List S3Version

/-- `put_object` on the versioned bucket (storage_service.py lines
109-122 / 146-156): a new version is appended, previous versions stay. -/
def s3Put (st : S3State) (key : String) (body : List ℕ) (ct : String) : S3State :=
  fun k => if k = key then st k ++ [{ body := some body, contentType := ct }] else st k

/-- `list_object_versions` as used by `StorageService.list_versions`
(storage_service.py lines 197-225). -/
def s3ListVersions (st : S3State) (key : String) : List S3Version := st key

/-- `delete_object` on the versioned bucket (storage_service.py lines
227-234): creates a delete marker, removes nothing. -/
def s3Delete (st : S3State) (key : String) : S3State :=
  fun k => if k = key then st k ++ [{ body := none, contentType := "" }] else st k

/-- `get_object` (storage_service.py lines 176-182): the latest version's
body, `NoSuchKey` if the key has no live latest version. -/
def s3Get (st : S3State) (key : String) : Except String (List ℕ) :=
  match (st key).getLast? with
  | some v =>
    match v.body with
    | some b => .ok b
    | none => .error ("File not found in storage: " ++ key)
  | none => .error ("File not found in storage: " ++ key)

/-- State of the local-filesystem fallback backend: one file per path. -/
def LocalState : Type := String → Option (List ℕ)

/-- The empty local store. -/
def localEmpty : LocalState := fun _ => none

/-- `file_path.write_bytes(...)` in local mode (storage_service.py lines
102-107 / 139-144): truncates and replaces the file content; no previous
version is kept. -/
def localWrite (st : LocalState) (key : String) (body : List ℕ) : LocalState :=
  fun k => if k = key then some body else st k

/-- `StorageService.get_file` in local mode (storage_service.py lines
170-174). -/
def localGet (st : LocalState) (key : String) : Except String (List ℕ) :=
  match st key with
  | some b => .ok b
  | none => .error ("File not found in storage: " ++ key)

/-- `StorageService.list_versions` in local mode: `self.s3_client` is
`None` (storage_service.py line 58), so
`self.s3_client.list_object_versions(...)` raises `AttributeError`, which
the `except ClientError` clause does not catch. -/
def localListVersions (_ : LocalState) (_ : String) :
    Except String (List S3Version) :=
  .error "AttributeError: NoneType object has no attribute list_object_versions"

/-- The object key of `store_pdf` (storage_service.py line 100):
`f"invoices/\x7bdatetime.utcnow().year\x7d/\x7binvoice_number\x7d.pdf"`. -/
def pdfKey (year : ℕ) (invoice_number : String) : String :=
  "invoices/" ++ PyFloat.natStr year ++ "/" ++ invoice_number ++ ".pdf"

/-- The object key of `store_xml` (storage_service.py line 137). -/
def xmlKey (year : ℕ) (invoice_number : String) : String :=
  "invoices/" ++ PyFloat.natStr year ++ "/" ++ invoice_number ++ ".xml"

end Storage

namespace Pipeline

/-- Audit-entry payloads (`details` dictionaries of invoice_service.py
lines 200-204 and 290-293). -/
inductive AuditDetails where
  | create (invoice_number : String) (gross_total : ℚ) (buyer : String)
  | cancel (invoice_number : String) (reason : String)
deriving Repr, DecidableEq

/-- A row of `audit_logs` (models/models.py `AuditLog`). -/
structure AuditRec where
  user_id : ℕ
  entity_type : String
  entity_id : ℕ
  action : String
  details : AuditDetails
deriving Repr, DecidableEq

/-- A row of `invoices` (models/models.py `Invoice`), restricted to the
columns the core pipeline writes or reads; the seller/buyer structures
stand for the flattened `seller_*`/`buyer_*` snapshot columns filled in
invoice_service.py lines 136-153. -/
structure InvoiceRec where
  id : ℕ
  invoice_number : String
  issue_date : Date
  delivery_date_start : Option Date
  delivery_date_end : Option Date
  seller : Seller
  buyer : Buyer
  currency : String
  net_total : ℚ
  tax_total : ℚ
  gross_total : ℚ
  tax_exempt : Bool
  tax_exempt_reason : Option String
  notes : Option String
  payment_terms : Option String
  pdfa3_path : String
  zugferd_xml_path : String
  pdf_hash : String
  tsa_token : Signature.TsaToken
  status : String
  version : ℕ
  is_immutable : Bool
  created_by : ℕ
deriving Repr, DecidableEq

/-- Persistent state the pipeline touches: the number sequence row for the
configured prefix, the archival store (its get-after-put view), and the
database tables. -/
structure AppState where
  seq : Option ℕ
  store : Storage.LocalState
  invoices : List InvoiceRec
  audit : List AuditRec
  nextId : ℕ

/-- Request-independent inputs of one issuance: the wall clock
(`datetime.utcnow()` readings) and the outcome of the external TSA
interaction (`some signed` = the authority answered, `none` = any
exception inside the `try` block of `_add_timestamp`). -/
structure PipelineEnv where
  now : String
  year : ℕ
  tsaOutcome : Option (List ℕ)

/-- The steps `InvoiceService.create_invoice` performs, in the order the
code runs them; `validateXml` stands for a call to
`ZUGFeRDGenerator.validate`. -/
inductive Step where
  | allocateNumber
  | computeTotals
  | generateXml
  | validateXml
  | generatePdf
  | signPdf
  | hashPdf
  | storePdf
  | storeXml
  | persistInvoice
  | persistLineItems
  | auditLog
deriving Repr, DecidableEq

/-- The ZUGFeRD XML produced inside `create_invoice` (invoice_service.py
lines 86-96; delivery dates and payment terms are not passed through, so
they take the generator's `None` defaults). -/
def xmlFor (invoice_number : String) (d : InvoiceCreate)
    (lines : List LineItemComputed) : Xml.XElem :=
  ZUGFeRD.generate invoice_number d.issue_date d.seller d.buyer lines
    (netTotal lines) (taxTotal lines) (grossTotal lines) d.currency none none none

/-- The serialized XML bytes. -/
def xmlBytesFor (invoice_number : String) (d : InvoiceCreate)
    (lines : List LineItemComputed) : List ℕ :=
  Xml.encode (xmlFor invoice_number d lines)

/-- The PDF/A-3 composed inside `create_invoice` (invoice_service.py
lines 99-112). -/
def pdfFor (invoice_number : String) (d : InvoiceCreate)
    (lines : List LineItemComputed) : Pdf.Pdfa3 :=
  Pdf.generate invoice_number d.issue_date d.seller d.buyer lines
    (netTotal lines) (taxTotal lines) (grossTotal lines) d.currency
    d.notes d.payment_terms (some (xmlBytesFor invoice_number d lines))

/-- The unsigned composed-document bytes. -/
def pdfBytesFor (invoice_number : String) (d : InvoiceCreate)
    (lines : List LineItemComputed) : List ℕ :=
  Pdf.encode (pdfFor invoice_number d lines)

/-- `InvoiceService.create_invoice` (invoice_service.py lines 40-211).
Returns the persisted invoice record, the state after the final commit,
and the trace of steps performed in order.  The number allocation commits
inside its own critical section (step 1); all remaining writes commit
together at line 208. -/
def createInvoice (env : PipelineEnv) (d : InvoiceCreate) (user_id : ℕ)
    (st : AppState) : InvoiceRec × AppState × List Step :=
  -- 1. sequential number, committed under the row lock
  let num := generateInvoiceNumber st.seq
  let invoice_number := num.1
  -- 2. totals
  let lines := computeLines d.line_items
  -- 3./4. structured and visual documents
  let xmlBytes := xmlBytesFor invoice_number d lines
  let pdfBytes := pdfBytesFor invoice_number d lines
  -- 5. timestamp (with fallback)
  let signed := Signature.signPdf env.now env.tsaOutcome pdfBytes
  -- 6. content hash of the final composed bytes
  let pdf_hash := SHA256.hexdigest signed.1
  -- 7. archival storage
  let pdf_path := Storage.pdfKey env.year invoice_number
  let xml_path := Storage.xmlKey env.year invoice_number
  let store' := Storage.localWrite (Storage.localWrite st.store pdf_path signed.1)
    xml_path xmlBytes
  -- 8.-10. metadata record, line items, audit entry, one commit
  let inv : InvoiceRec :=
    { id := st.nextId
      invoice_number := invoice_number
      issue_date := d.issue_date
      delivery_date_start := d.delivery_date_start
      delivery_date_end := d.delivery_date_end
      seller := d.seller
      buyer := d.buyer
      currency := d.currency
      net_total := netTotal lines
      tax_total := taxTotal lines
      gross_total := grossTotal lines
      tax_exempt := d.tax_exempt
      tax_exempt_reason := d.tax_exempt_reason
      notes := d.notes
      payment_terms := d.payment_terms
      pdfa3_path := pdf_path
      zugferd_xml_path := xml_path
      pdf_hash := pdf_hash
      tsa_token := signed.2
      status := "issued"
      version := 1
      is_immutable := true
      created_by := user_id }
  let entry : AuditRec :=
    { user_id := user_id
      entity_type := "invoice"
      entity_id := inv.id
      action := "create"
      details := .create invoice_number (grossTotal lines) d.buyer.name }
  (inv,
   { seq := some num.2
     store := store'
     invoices := st.invoices ++ [inv]
     audit := st.audit ++ [entry]
     nextId := st.nextId + 1 },
   [.allocateNumber, .computeTotals, .generateXml, .generatePdf, .signPdf,
    .hashPdf, .storePdf, .storeXml, .persistInvoice, .persistLineItems,
    .auditLog])

/-- `InvoiceService.cancel_invoice` (invoice_service.py lines 277-300):
set the status, append one audit entry, commit. -/
def cancelService (inv : InvoiceRec) (reason : String) (user_id : ℕ)
    (st : AppState) : InvoiceRec × AppState :=
  let inv' := { inv with status := "cancelled" }
  let entry : AuditRec :=
    { user_id := user_id
      entity_type := "invoice"
      entity_id := inv.id
      action := "cancel"
      details := .cancel inv.invoice_number reason }
  (inv',
   { st with
     invoices := st.invoices.map fun i => if i.id = inv.id then inv' else i
     audit := st.audit ++ [entry] })

/-- The HTTP outcome of the cancel route: the 200 response body fields, or
an `HTTPException` with its status code and detail. -/
inductive CancelResult where
  | ok (invoice_id : ℕ) (stat : String) (cancellation_reason : String)
  | err (code : ℕ) (detail : String)
deriving Repr, DecidableEq

/-- `db.query(Invoice).filter(Invoice.id == invoice_id).first()`. -/
def findInvoice (st : AppState) (invoice_id : ℕ) : Option InvoiceRec :=
  st.invoices.find? fun i => i.id = invoice_id

/-- The `DELETE /invoices/\x7binvoice_id\x7d` route `cancel_invoice`
(api/invoices.py lines 197-238): 404 when absent, 400 when already
cancelled (raised before any mutation), otherwise delegate to the
service. -/
def cancelRoute (st : AppState) (invoice_id : ℕ) (reason : String)
    (user_id : ℕ) : CancelResult × AppState :=
  match findInvoice st invoice_id with
  | none =>
    (.err 404 ("Invoice with ID " ++ PyFloat.natStr invoice_id ++ " not found"), st)
  | some inv =>
    if inv.status = "cancelled" then
      (.err 400 "Invoice is already cancelled", st)
    else
      let r := cancelService inv reason user_id st
      (.ok invoice_id r.1.status reason, r.2)

end Pipeline

/-!
## Claim theorems
-/

lemma allocRun_eq_range' (N : ℕ) : ∀ seq : Option ℕ,
    allocRun N seq = List.range' (allocBase seq) N := by
  induction N with
  | zero => intro seq; rfl
  | succ n ih =>
    intro seq
    cases seq with
    | none =>
      simp [allocRun, generateInvoiceNumberRaw, allocBase, List.range'_succ, ih,
        Config.invoiceNumberStart]
    | some c =>
      simp [allocRun, generateInvoiceNumberRaw, allocBase, List.range'_succ, ih]

/-- C1: successive allocations for the configured prefix return exactly the
contiguous block starting at the row's current value (at the configured
starting value when the first call has to create the row), with no
duplicates and no gaps; the first call on a missing row creates it with
`INVOICE_NUMBER_START = 10000` and renders the number zero-padded to six
digits (`"RE010000"`).  Concurrent callers serialize through the
`SELECT ... FOR UPDATE` row lock of `_generate_invoice_number`, so every
interleaving reduces to this sequential composition. -/
theorem allocator_gapless_contiguous (N : ℕ) (seq : Option ℕ) :
    allocRun N seq = List.range' (allocBase seq) N ∧
    (allocRun N seq).Nodup ∧
    generateInvoiceNumber none = ("RE010000", Config.invoiceNumberStart + 1) ∧
    (allocRun N seq).map formatInvoiceNumber =
      (List.range' (allocBase seq) N).map
        (fun n => Config.invoiceNumberPfx ++ zeroPad6 n) := by
  refine ⟨allocRun_eq_range' N seq, ?_, by decide, ?_⟩
  · rw [allocRun_eq_range' N seq]
    exact List.nodup_range' _ _
  · rw [allocRun_eq_range' N seq]
    rfl

/-- C2 counterexample: the specification's rounding mode ("half-up decimal
rounding to 2 fractional digits") disagrees with the code.  For the line
item `quantity=1, unit_price=0.125`, `round(quantity * unit_price, 2)` in
CPython rounds the exact tie `0.125` to even, giving `0.12`, while the
claimed half-up rounding gives `0.13`. -/
theorem rounding_halfup_counterexample :
    lineNet (PyFloat.lit 1) (PyFloat.lit (mkRat 1 8)) = PyFloat.lit (mkRat 12 100) ∧
    specHalfUp2 (PyFloat.qmul (PyFloat.lit 1) (PyFloat.lit (mkRat 1 8))) = mkRat 13 100 ∧
    lineNet (PyFloat.lit 1) (PyFloat.lit (mkRat 1 8)) ≠
      specHalfUp2 (PyFloat.qmul (PyFloat.lit 1) (PyFloat.lit (mkRat 1 8))) := by
  decide

/-- C2 amended: the per-line formulas are
`net = round(q*p, 2)`, `tax = round(net*r/100, 2)`,
`gross = round(net+tax, 2)` where `round` is CPython float rounding
(round-half-to-even on the exact binary64 value, result re-rounded to the
nearest double); the cited input `quantity=3, unit_price=10.005,
tax_rate=19` yields net = 30.02, tax = 5.70, gross = 35.72 (as doubles);
the invoice-level net and tax totals are float sums of the already-rounded
line values, and the gross total is `round(net_total + tax_total, 2)`. -/
theorem rounding_cited_input_floats :
    computeLines
        [{ description := "Beratung", quantity := PyFloat.lit 3, unit := "h",
           unit_price := PyFloat.lit (mkRat 2001 200), tax_rate := PyFloat.lit 19 }] =
      [{ position := 1, description := "Beratung", quantity := PyFloat.lit 3,
         unit := "h", unit_price := PyFloat.lit (mkRat 2001 200),
         line_net := PyFloat.lit (mkRat 3002 100), tax_rate := PyFloat.lit 19,
         tax_amount := PyFloat.lit (mkRat 57 10),
         line_gross := PyFloat.lit (mkRat 3572 100) }] ∧
    netTotal (computeLines
        [{ description := "Beratung", quantity := PyFloat.lit 3, unit := "h",
           unit_price := PyFloat.lit (mkRat 2001 200), tax_rate := PyFloat.lit 19 }]) =
      PyFloat.lit (mkRat 3002 100) ∧
    taxTotal (computeLines
        [{ description := "Beratung", quantity := PyFloat.lit 3, unit := "h",
           unit_price := PyFloat.lit (mkRat 2001 200), tax_rate := PyFloat.lit 19 }]) =
      PyFloat.lit (mkRat 57 10) ∧
    grossTotal (computeLines
        [{ description := "Beratung", quantity := PyFloat.lit 3, unit := "h",
           unit_price := PyFloat.lit (mkRat 2001 200), tax_rate := PyFloat.lit 19 }]) =
      PyFloat.lit (mkRat 3572 100) := by
  decide

lemma key_pdf_ne_xml (y : ℕ) (n : String) :
    Storage.pdfKey y n ≠ Storage.xmlKey y n := by
  intro h
  have hd : (Storage.pdfKey y n).data = (Storage.xmlKey y n).data := by rw [h]
  simp only [Storage.pdfKey, Storage.xmlKey, String.data_append,
    List.append_assoc] at hd
  have h1 := List.append_cancel_left hd
  have h2 := List.append_cancel_left h1
  have h3 := List.append_cancel_left h2
  have h4 := List.append_cancel_left h3
  exact absurd h4 (by decide)

/-- C10: every invoice record the issuance pipeline persists carries
`status = "issued"` and `is_immutable = True`, appended to the table in
the same single commit; the `"draft"` member of the status domain is never
produced by the pipeline. -/
theorem issuance_persists_issued_immutable (env : Pipeline.PipelineEnv)
    (d : InvoiceCreate) (uid : ℕ) (st : Pipeline.AppState) :
    (Pipeline.createInvoice env d uid st).1.status = "issued" ∧
    (Pipeline.createInvoice env d uid st).1.is_immutable = true ∧
    (Pipeline.createInvoice env d uid st).2.1.invoices =
      st.invoices ++ [(Pipeline.createInvoice env d uid st).1] ∧
    (Pipeline.createInvoice env d uid st).1.status ≠ "draft" := by
  refine ⟨rfl, rfl, rfl, ?_⟩
  show ("issued" : String) ≠ "draft"
  decide

/-- C5 counterexample: the claim requires every proof token to contain
"the authority endpoint used", but the fallback token stores the sentinel
`"mock_tsa"` in its `tsa_url` field instead of the configured authority
endpoint that was attempted (`settings.TSA_URL`). -/
theorem fallback_token_endpoint_counterexample :
    (Signature.addTimestamp "2024-01-01T00:00:00" none [37]).2.tsa_url = "mock_tsa" ∧
    Config.tsaUrl ≠ "mock_tsa" := by
  exact ⟨rfl, by decide⟩

/-- C5 amended: on any authority failure `sign_pdf` does not raise and
returns a fallback token flagged with the explicit not-for-production
warning, distinguishable from a genuine token (whose `warning` is absent);
every token carries the digest algorithm, the pre-submission digest, the
post-processing digest and the attempt timestamp, and carries the
configured authority endpoint when genuine but the sentinel `"mock_tsa"`
when degraded; a degraded issuance still completes with an issued
invoice. -/
theorem proof_token_fields_and_fallback (now : String)
    (outcome : Option (List ℕ)) (pdf : List ℕ) :
    (Signature.addTimestamp now outcome pdf).2.hash_algorithm = Config.tsaHashAlgorithm ∧
    (Signature.addTimestamp now outcome pdf).2.timestamp = now ∧
    (Signature.addTimestamp now outcome pdf).2.pdf_hash = SHA256.hexdigest pdf ∧
    (match outcome with
     | none =>
       (Signature.addTimestamp now none pdf).1 = pdf ∧
       (Signature.addTimestamp now none pdf).2.tsa_url = "mock_tsa" ∧
       (Signature.addTimestamp now none pdf).2.warning =
         some "Mock timestamp - not for production use" ∧
       (Signature.addTimestamp now none pdf).2.signed_pdf_hash = SHA256.hexdigest pdf
     | some s =>
       (Signature.addTimestamp now (some s) pdf).1 = s ∧
       (Signature.addTimestamp now (some s) pdf).2.tsa_url = Config.tsaUrl ∧
       (Signature.addTimestamp now (some s) pdf).2.warning = none ∧
       (Signature.addTimestamp now (some s) pdf).2.signed_pdf_hash =
         SHA256.hexdigest s) ∧
    (∀ (nw : String) (yr : ℕ) (d : InvoiceCreate) (uid : ℕ)
        (st : Pipeline.AppState),
      (Pipeline.createInvoice ⟨nw, yr, none⟩ d uid st).1.status = "issued" ∧
      (Pipeline.createInvoice ⟨nw, yr, none⟩ d uid st).1.tsa_token.warning ≠ none) := by
  rcases outcome with _ | s
  · exact ⟨rfl, rfl, rfl, ⟨rfl, rfl, rfl, rfl⟩,
      fun nw yr d uid st => ⟨rfl, fun h => Option.noConfusion h⟩⟩
  · exact ⟨rfl, rfl, rfl, ⟨rfl, rfl, rfl, rfl⟩,
      fun nw yr d uid st => ⟨rfl, fun h => Option.noConfusion h⟩⟩

/-- C9: whenever the timestamping step fails, `sign_pdf` returns the input
bytes unchanged, the fallback token's pre-submission digest equals its
post-processing digest, and the archived composed document of a degraded
issuance is exactly the unsigned PDF the composer produced. -/
theorem degraded_path_identity (now : String) (yr : ℕ) (d : InvoiceCreate)
    (uid : ℕ) (st : Pipeline.AppState) (b : List ℕ) :
    (Signature.signPdf now none b).1 = b ∧
    (Signature.signPdf now none b).2.pdf_hash =
      (Signature.signPdf now none b).2.signed_pdf_hash ∧
    Storage.localGet (Pipeline.createInvoice ⟨now, yr, none⟩ d uid st).2.1.store
        (Pipeline.createInvoice ⟨now, yr, none⟩ d uid st).1.pdfa3_path =
      .ok (Pipeline.pdfBytesFor (generateInvoiceNumber st.seq).1 d
        (computeLines d.line_items)) ∧
    (Pipeline.createInvoice ⟨now, yr, none⟩ d uid st).1.tsa_token.pdf_hash =
      (Pipeline.createInvoice ⟨now, yr, none⟩ d uid st).1.tsa_token.signed_pdf_hash := by
  refine ⟨rfl, rfl, ?_, rfl⟩
  have hne := key_pdf_ne_xml yr (generateInvoiceNumber st.seq).1
  simp [Pipeline.createInvoice, Storage.localGet, Storage.localWrite,
    Signature.signPdf, Signature.addTimestamp, hne]

/-- C8: for every issued invoice, re-fetching the composed document from
the archival store under the persisted key and recomputing its SHA-256
digest reproduces the persisted content hash. -/
theorem hash_round_trip (env : Pipeline.PipelineEnv) (d : InvoiceCreate)
    (uid : ℕ) (st : Pipeline.AppState) :
    (Storage.localGet (Pipeline.createInvoice env d uid st).2.1.store
        (Pipeline.createInvoice env d uid st).1.pdfa3_path).map SHA256.hexdigest =
      Except.ok (Pipeline.createInvoice env d uid st).1.pdf_hash := by
  have hne := key_pdf_ne_xml env.year (generateInvoiceNumber st.seq).1
  simp [Pipeline.createInvoice, Storage.localGet, Storage.localWrite, hne,
    Except.map]

/-- C7 counterexample: on the local-filesystem backend an overwrite
replaces the file in place, so a previously retrievable object is gone
afterwards, and `list_versions` in local mode raises instead of reporting
versions — against the claim that both backends only ever append
versions. -/
theorem local_overwrite_loses_version_counterexample :
    Storage.localGet (Storage.localWrite Storage.localEmpty
        "invoices/2025/RE010000.pdf" [1]) "invoices/2025/RE010000.pdf" = .ok [1] ∧
    Storage.localGet (Storage.localWrite (Storage.localWrite Storage.localEmpty
        "invoices/2025/RE010000.pdf" [1]) "invoices/2025/RE010000.pdf" [2])
        "invoices/2025/RE010000.pdf" = .ok [2] ∧
    Storage.localGet (Storage.localWrite (Storage.localWrite Storage.localEmpty
        "invoices/2025/RE010000.pdf" [1]) "invoices/2025/RE010000.pdf" [2])
        "invoices/2025/RE010000.pdf" ≠ .ok [1] ∧
    Storage.localListVersions (Storage.localWrite (Storage.localWrite
        Storage.localEmpty "k" [1]) "k" [2]) "k" =
      .error "AttributeError: NoneType object has no attribute list_object_versions" := by
  refine ⟨rfl, rfl, fun h => ?_, rfl⟩
  exact absurd (Except.ok.inj h) (by decide)

/-- C7 amended: on the remote object-store backend (versioned bucket)
every write appends a new version and never shrinks any key's version
list, and deletion appends a delete marker; the local-filesystem fallback
instead keeps only the latest object per path (an overwrite replaces the
previous bytes) and its `list_versions` fails with an `AttributeError`. -/
theorem s3_version_retention_amended (st : Storage.S3State) (key k2 : String)
    (b : List ℕ) (ct : String) (lst : Storage.LocalState) (b2 : List ℕ) :
    Storage.s3ListVersions (Storage.s3Put st key b ct) key =
      Storage.s3ListVersions st key ++ [{ body := some b, contentType := ct }] ∧
    (Storage.s3ListVersions st k2).length ≤
      (Storage.s3ListVersions (Storage.s3Put st key b ct) k2).length ∧
    Storage.s3ListVersions (Storage.s3Delete st key) key =
      Storage.s3ListVersions st key ++ [{ body := none, contentType := "" }] ∧
    Storage.s3Get (Storage.s3Put st key b ct) key = .ok b ∧
    Storage.localGet (Storage.localWrite lst key b2) key = .ok b2 ∧
    Storage.localListVersions lst key =
      .error "AttributeError: NoneType object has no attribute list_object_versions" := by
  refine ⟨by simp [Storage.s3ListVersions, Storage.s3Put], ?_,
    by simp [Storage.s3ListVersions, Storage.s3Delete],
    by simp [Storage.s3Get, Storage.s3Put, Storage.s3ListVersions],
    by simp [Storage.localGet, Storage.localWrite], rfl⟩
  by_cases hk : k2 = key
  · subst hk
    simp [Storage.s3ListVersions, Storage.s3Put]
  · simp [Storage.s3ListVersions, Storage.s3Put, hk]

/-- A concrete issued invoice for exercising the cancel route. -/
def sampleInvoice : Pipeline.InvoiceRec :=
  { id := 1
    invoice_number := "RE010000"
    issue_date := ⟨2025, 1, 15⟩
    delivery_date_start := none
    delivery_date_end := none
    seller := ⟨"Musterfirma Software GmbH", "Innovationsstr. 42", "10115",
      "Berlin", "DE", "DE123456789", none, none⟩
    buyer := ⟨"Kundenfirma Handel AG", "Hauptstr. 123", "80331", "Muenchen",
      "DE", none, none, none⟩
    currency := "EUR"
    net_total := 100
    tax_total := 19
    gross_total := 119
    tax_exempt := false
    tax_exempt_reason := none
    notes := none
    payment_terms := none
    pdfa3_path := "invoices/2025/RE010000.pdf"
    zugferd_xml_path := "invoices/2025/RE010000.xml"
    pdf_hash := "0123456789abcdef"
    tsa_token := ⟨"mock_tsa", "2025-01-15T10:00:00", "SHA256", "h", "h",
      some "Mock timestamp - not for production use"⟩
    status := "issued"
    version := 1
    is_immutable := true
    created_by := 1 }

/-- A database state holding `sampleInvoice` and an empty audit log. -/
def sampleDb : Pipeline.AppState :=
  { seq := some 10001
    store := Storage.localEmpty
    invoices := [sampleInvoice]
    audit := []
    nextId := 2 }

/-- C6 counterexample: cancelling the same invoice twice makes the second
attempt fail with HTTP 400 Bad Request, not with the 409 Conflict status
the claim's "conflict" denotes; exactly one cancellation audit entry
exists afterwards. -/
theorem cancel_second_attempt_counterexample :
    (Pipeline.cancelRoute (Pipeline.cancelRoute sampleDb 1 "Storno" 7).2
        1 "Storno" 7).1 =
      Pipeline.CancelResult.err 400 "Invoice is already cancelled" ∧
    (400 : ℕ) ≠ 409 ∧
    ((Pipeline.cancelRoute (Pipeline.cancelRoute sampleDb 1 "Storno" 7).2
        1 "Storno" 7).2.audit.filter (fun a => a.action = "cancel")).length = 1 := by
  refine ⟨?_, by decide, ?_⟩ <;> rfl

/-- C6 amended: the cancel route rejects a missing invoice with 404 and an
already-cancelled invoice with HTTP 400 Bad Request ("conflict" in the
claim; the code does not use 409), mutating nothing and adding no audit
entry in either case; otherwise it flips exactly the status field to
`"cancelled"`, leaves every other column and the stored documents
untouched, appends exactly one audit entry carrying the supplied reason,
and a second cancellation of the same invoice then fails with the same 400
rejection leaving the state of the first cancellation unchanged. -/
theorem cancel_route_behaviour (st : Pipeline.AppState) (iid : ℕ)
    (reason : String) (uid : ℕ) :
    match Pipeline.findInvoice st iid with
    | none =>
      Pipeline.cancelRoute st iid reason uid =
        (.err 404 ("Invoice with ID " ++ PyFloat.natStr iid ++ " not found"), st)
    | some inv =>
      if inv.status = "cancelled" then
        Pipeline.cancelRoute st iid reason uid =
          (.err 400 "Invoice is already cancelled", st)
      else
        Pipeline.cancelRoute st iid reason uid =
          (.ok iid "cancelled" reason,
           { st with
             invoices := st.invoices.map fun i =>
               if i.id = inv.id then { inv with status := "cancelled" } else i
             audit := st.audit ++
               [{ user_id := uid, entity_type := "invoice", entity_id := inv.id,
                  action := "cancel",
                  details := .cancel inv.invoice_number reason }] }) ∧
        ((Pipeline.cancelRoute st iid reason uid).2.audit.filter
            (fun a => a.action = "cancel")).length =
          (st.audit.filter (fun a => a.action = "cancel")).length + 1 ∧
        Pipeline.cancelRoute (Pipeline.cancelRoute st iid reason uid).2
            iid reason uid =
          (.err 400 "Invoice is already cancelled",
           (Pipeline.cancelRoute st iid reason uid).2) := by
  rcases hfind : Pipeline.findInvoice st iid with _ | inv
  · simp only [hfind]
    simp [Pipeline.cancelRoute, hfind]
  · simp only [hfind]
    by_cases hst : inv.status = "cancelled"
    · simp [Pipeline.cancelRoute, hfind, hst]
    · have hid : inv.id = iid := by
        have := List.find?_some hfind
        simpa using this
      have hfind2 :
          Pipeline.findInvoice (Pipeline.cancelRoute st iid reason uid).2 iid =
            some { inv with status := "cancelled" } := by
        simp only [Pipeline.cancelRoute, hfind, hst, if_false]
        simp only [Pipeline.cancelService, Pipeline.findInvoice]
        rw [List.find?_map]
        have hpred :
            ((fun i : Pipeline.InvoiceRec => decide (i.id = iid)) ∘
              (fun i : Pipeline.InvoiceRec =>
                if i.id = inv.id then { inv with status := "cancelled" } else i)) =
            fun i : Pipeline.InvoiceRec => decide (i.id = iid) := by
          funext i
          by_cases h : i.id = inv.id
          · simp [h]
          · simp [h]
        rw [hpred]
        have hfind' :
            List.find? (fun i : Pipeline.InvoiceRec => decide (i.id = iid))
              st.invoices = some inv := hfind
        rw [hfind']
        simp
      rw [if_neg hst]
      refine ⟨?_, ?_, ?_⟩
      · simp [Pipeline.cancelRoute, hfind, hst, Pipeline.cancelService]
      · simp [Pipeline.cancelRoute, hfind, hst, Pipeline.cancelService,
          List.filter_append]
      · have hcanc :
            ({ inv with status := "cancelled" } : Pipeline.InvoiceRec).status =
              "cancelled" := rfl
        rw [Pipeline.cancelRoute.eq_def]
        rw [hfind2]
        simp

lemma hasTagL_append (p : Xml.QN) (l1 l2 : List Xml.XElem) :
    Xml.hasTagL p (l1 ++ l2) = (Xml.hasTagL p l1 || Xml.hasTagL p l2) := by
  induction l1 with
  | nil => simp [Xml.hasTagL]
  | cons x l ih =>
    cases x
    simp [Xml.hasTagL, ih, Bool.or_assoc]

lemma textsOfTag_append (p : Xml.QN) (l1 l2 : List Xml.XElem) :
    Xml.textsOfTag p (l1 ++ l2) =
      Xml.textsOfTag p l1 ++ Xml.textsOfTag p l2 := by
  induction l1 with
  | nil => simp [Xml.textsOfTag]
  | cons x l ih =>
    cases x
    simp [Xml.textsOfTag, ih]

/-- The pipeline's generator call always satisfies the companion check. -/
lemma validate_xmlFor (invoice_number : String) (d : InvoiceCreate)
    (lines : List LineItemComputed) :
    ZUGFeRD.validate (Pipeline.xmlFor invoice_number d lines) = true := by
  simp [ZUGFeRD.validate, Pipeline.xmlFor, ZUGFeRD.generate,
    ZUGFeRD.sellerParty, ZUGFeRD.buyerParty, Xml.E, Xml.T, Xml.TA,
    Xml.XElem.tag, Xml.XElem.children, Xml.hasTagL, hasTagL_append,
    Xml.rsm, Xml.ram, Xml.udt]

lemma texts_grand_cons_lineItem (it : LineItemComputed)
    (rest : List Xml.XElem) :
    Xml.textsOfTag ⟨Xml.ramNS, "GrandTotalAmount"⟩
        (ZUGFeRD.lineItemElem it :: rest) =
      Xml.textsOfTag ⟨Xml.ramNS, "GrandTotalAmount"⟩ rest := by
  simp [ZUGFeRD.lineItemElem, Xml.textsOfTag, Xml.E, Xml.T, Xml.TA, Xml.ram]

lemma texts_grand_map_lineItems (l : List LineItemComputed)
    (rest : List Xml.XElem) :
    Xml.textsOfTag ⟨Xml.ramNS, "GrandTotalAmount"⟩
        (l.map ZUGFeRD.lineItemElem ++ rest) =
      Xml.textsOfTag ⟨Xml.ramNS, "GrandTotalAmount"⟩ rest := by
  induction l with
  | nil => simp
  | cons it l ih =>
    rw [List.map_cons, List.cons_append, texts_grand_cons_lineItem]
    exact ih

lemma texts_grand_map_nil (l : List LineItemComputed) :
    Xml.textsOfTag ⟨Xml.ramNS, "GrandTotalAmount"⟩
      (l.map ZUGFeRD.lineItemElem) = [] := by
  have h := texts_grand_map_lineItems l []
  simpa [Xml.textsOfTag] using h

lemma texts_grand_cons_buyer (b : Buyer) (rest : List Xml.XElem) :
    Xml.textsOfTag ⟨Xml.ramNS, "GrandTotalAmount"⟩
        (ZUGFeRD.buyerParty b :: rest) =
      Xml.textsOfTag ⟨Xml.ramNS, "GrandTotalAmount"⟩ rest := by
  rcases b with ⟨nm, street, zp, city, country, tid, em, ph⟩
  rcases tid with _ | t
  · simp [ZUGFeRD.buyerParty, Xml.textsOfTag, Xml.E, Xml.T, Xml.TA, Xml.ram]
  · by_cases ht : t = "" <;>
      simp [ZUGFeRD.buyerParty, Xml.textsOfTag, Xml.E, Xml.T, Xml.TA,
        Xml.ram, ht]

lemma texts_grand_xmlFor (invoice_number : String) (d : InvoiceCreate)
    (lines : List LineItemComputed) :
    Xml.textsOfTag (Xml.ram "GrandTotalAmount")
        [Pipeline.xmlFor invoice_number d lines] =
      [PyFloat.fmt2 (grossTotal lines)] := by
  simp only [Xml.ram]
  rcases lines with _ | ⟨it, rest⟩ <;>
    simp [Pipeline.xmlFor, ZUGFeRD.generate, ZUGFeRD.sellerParty,
      Xml.textsOfTag, Xml.E, Xml.T, Xml.TA, Xml.rsm, Xml.ram, Xml.udt,
      textsOfTag_append, texts_grand_map_lineItems, texts_grand_cons_lineItem,
      texts_grand_map_nil, texts_grand_cons_buyer]

/-- C3: the grand-total amount string in the structured XML document, the
amount string of the emphasized gross row of the visual PDF document, and
the persisted `gross_total` all come from one computed value: the XML
carries exactly `format(gross_total, '.2f')`, the PDF gross cell is that
same string followed by the currency, and the persisted column holds the
same `gross_total` the formatting was applied to — so the amount rendering
is byte-identical across the two documents and reproducible from the
metadata; determinism holds because every stage is a pure function of the
draft. -/
theorem totals_agreement (invoice_number : String) (d : InvoiceCreate) :
    Xml.textsOfTag (Xml.ram "GrandTotalAmount")
        [Pipeline.xmlFor invoice_number d (computeLines d.line_items)] =
      [PyFloat.fmt2 (grossTotal (computeLines d.line_items))] ∧
    (Pipeline.pdfFor invoice_number d (computeLines d.line_items)).doc.totalsRows =
      [["Nettobetrag:",
        PyFloat.fmt2 (netTotal (computeLines d.line_items)) ++ " " ++ d.currency],
       ["MwSt.:",
        PyFloat.fmt2 (taxTotal (computeLines d.line_items)) ++ " " ++ d.currency],
       ["", ""],
       ["Gesamtbetrag:",
        PyFloat.fmt2 (grossTotal (computeLines d.line_items)) ++ " " ++ d.currency]] ∧
    (∀ (env : Pipeline.PipelineEnv) (uid : ℕ) (st : Pipeline.AppState),
      (Pipeline.createInvoice env d uid st).1.gross_total =
        grossTotal (computeLines d.line_items)) := by
  exact ⟨texts_grand_xmlFor invoice_number d (computeLines d.line_items),
    rfl, fun env uid st => rfl⟩

/-- A concrete draft for exercising the pipeline. -/
def sampleDraft : InvoiceCreate :=
  { issue_date := ⟨2025, 1, 15⟩
    delivery_date_start := none
    delivery_date_end := none
    currency := "EUR"
    tax_exempt := false
    tax_exempt_reason := none
    notes := none
    payment_terms := some "Zahlbar innerhalb von 14 Tagen"
    seller := ⟨"Musterfirma Software GmbH", "Innovationsstr. 42", "10115",
      "Berlin", "DE", "DE123456789", none, none⟩
    buyer := ⟨"Kundenfirma Handel AG", "Hauptstr. 123", "80331", "Muenchen",
      "DE", some "DE987654321", none, none⟩
    line_items := [⟨"Beratung", PyFloat.lit 3, "h",
      PyFloat.lit (mkRat 2001 200), PyFloat.lit 19⟩] }

/-- A concrete issuance environment (TSA reachable is irrelevant here). -/
def sampleEnv : Pipeline.PipelineEnv := ⟨"2025-01-15T10:00:00", 2025, none⟩

/-- C4 counterexample: a full issuance run never performs the companion
validation step — `ZUGFeRDGenerator.validate` is not invoked anywhere in
`create_invoice`, so no check runs between producing the XML bytes and
handing them to PDF composition and storage. -/
theorem validation_not_invoked_counterexample :
    Pipeline.Step.validateXml ∉
      (Pipeline.createInvoice sampleEnv sampleDraft 1
        { seq := none, store := Storage.localEmpty, invoices := [],
          audit := [], nextId := 1 }).2.2 := by
  decide

/-- C4 amended: the companion check `ZUGFeRDGenerator.validate` exists and
would accept every document the pipeline's generator call produces (root
element identity plus the four required descendants), but the issuance
pipeline never invokes it: the steps `create_invoice` performs, in order,
contain no validation step. -/
theorem validation_check_unused_but_sound :
    (∀ (invoice_number : String) (d : InvoiceCreate)
        (lines : List LineItemComputed),
      ZUGFeRD.validate (Pipeline.xmlFor invoice_number d lines) = true) ∧
    (∀ (env : Pipeline.PipelineEnv) (d : InvoiceCreate) (uid : ℕ)
        (st : Pipeline.AppState),
      (Pipeline.createInvoice env d uid st).2.2 =
        [.allocateNumber, .computeTotals, .generateXml, .generatePdf,
         .signPdf, .hashPdf, .storePdf, .storeXml, .persistInvoice,
         .persistLineItems, .auditLog] ∧
      Pipeline.Step.validateXml ∉ (Pipeline.createInvoice env d uid st).2.2) := by
  refine ⟨validate_xmlFor, fun env d uid st => ⟨rfl, ?_⟩⟩
  show Pipeline.Step.validateXml ∉
    ([.allocateNumber, .computeTotals, .generateXml, .generatePdf,
      .signPdf, .hashPdf, .storePdf, .storeXml, .persistInvoice,
      .persistLineItems, .auditLog] : List Pipeline.Step)
  decide
